import Mathlib

/-!
Shallow embedding of the VoodooPS2 Elantech trackpad protocol engine
(`VoodooPS2ElanTrackpad.cpp` / `VoodooPS2ElanTrackpad.h`) and proofs about
its packet classifier, version resolver, parity table, register-access
command encoders and the v3 absolute-position / tap-gesture state machine.

Machine integers are modelled as `Nat`/`Int` with explicit wrap-around
(`% 2^32`, 16-bit two's-complement truncation) at the points where the
C code can overflow or truncate.
-/

namespace Elan

/-! ### Machine-arithmetic helpers -/

/-- Wrap an `Int` to its `unsigned int` (32-bit) representative, as C's
integer conversion does. -/
def u32ofInt (n : Int) : Nat := (n % 4294967296).toNat

/-- Reinterpret a 32-bit unsigned value as a signed `int`
(two's complement). -/
def toI32 (n : Nat) : Int :=
  if n % 4294967296 < 2147483648 then ((n % 4294967296 : Nat) : Int)
  else ((n % 4294967296 : Nat) : Int) - 4294967296

/-- Truncate a `Nat` to a signed 16-bit value, as C does when an
`unsigned int` is stored into an `SInt16` field of `IOGPoint`. -/
def i16 (n : Nat) : Int :=
  if n % 65536 < 32768 then ((n % 65536 : Nat) : Int)
  else ((n % 65536 : Nat) : Int) - 65536

/-- C expression `a - b` where `a` is `unsigned int` and `b` a signed
value: `b` is converted to unsigned, the subtraction wraps modulo `2^32`,
and the result is read back as a signed `int`. -/
def cSub (a : Nat) (b : Int) : Int :=
  toI32 ((a + (4294967296 - u32ofInt b)) % 4294967296)

/-- Number of set bits of a natural number (the mathematical popcount,
used only to state properties of the parity table; the first argument is
fuel, and `n` halvings always suffice for `n`). -/
def popcountAux : Nat → Nat → Nat
  | 0, _ => 0
  | fuel + 1, n => if n = 0 then 0 else popcountAux fuel (n / 2) + n % 2

/-- Number of set bits of `n`. -/
def popcount (n : Nat) : Nat := popcountAux n n

/-! ### Constants from `VoodooPS2ElanTrackpad.h` -/

def ETP_FW_ID_QUERY : Nat := 0x00
def ETP_FW_VERSION_QUERY : Nat := 0x01
def ETP_CAPABILITIES_QUERY : Nat := 0x02
def ETP_REGISTER_READ : Nat := 0x10
def ETP_REGISTER_WRITE : Nat := 0x11
def ETP_REGISTER_READWRITE : Nat := 0x00
def ETP_PS2_CUSTOM_COMMAND : Nat := 0xf8
def ETP_TAPTOCLICK_DIST : Int := 32
def PACKET_UNKNOWN : Nat := 0x01
def PACKET_DEBOUNCE : Nat := 0x02
def PACKET_V3_HEAD : Nat := 0x03
def PACKET_V3_TAIL : Nat := 0x04

/-! ### Packet classifier (generation 3) -/

/-- A raw 6-byte frame (`UInt8 packet[6]`); each field is a byte value. -/
structure Packet where
  b0 : Nat
  b1 : Nat
  b2 : Nat
  b3 : Nat
  b4 : Nat
  b5 : Nat
deriving DecidableEq

/-- The fixed v3 debounce frame `{ 0xc4, 0xff, 0xff, 0x02, 0xff, 0xff }`. -/
def debouncePacket : Packet := ⟨0xc4, 0xff, 0xff, 0x02, 0xff, 0xff⟩

/-- `elantech_packet_check_v3`: classify a 6-byte v3 frame by its
constant bits; the debounce signature is checked before the head mask. -/
def elantech_packet_check_v3 (p : Packet) : Nat :=
  if p = debouncePacket then PACKET_DEBOUNCE
  else if p.b0 &&& 0x0c = 0x04 ∧ p.b3 &&& 0xcf = 0x02 then PACKET_V3_HEAD
  else if p.b0 &&& 0x0c = 0x0c ∧ p.b3 &&& 0xce = 0x0c then PACKET_V3_TAIL
  else PACKET_UNKNOWN

/-! ### Version resolver (`elantech_set_properties`) -/

/-- The properties `elantech_set_properties` derives from the 24-bit
firmware version; `none` models its `-1` unknown-hardware error, on which
`probe` aborts detection. -/
structure ElanProps where
  hw_version : Nat
  send_cmd : Bool
  paritycheck : Bool
  jumpy_cursor : Bool
  debug : Nat
  reports_pressure : Bool

/-- `elantech_set_properties`: derive hardware generation and feature
flags from the firmware version. -/
def elantech_set_properties (fw : Nat) : Option ElanProps :=
  let ver := (fw &&& 0x0f0000) >>> 16
  let hw? : Option Nat :=
    if fw < 0x020030 ∨ fw = 0x020600 then some 1
    else if ver = 2 ∨ ver = 4 then some 2
    else if ver = 5 then some 3
    else if ver = 6 then some 4
    else none
  hw?.map fun hw =>
    { hw_version := hw
      send_cmd := decide (3 ≤ hw)
      paritycheck := true
      jumpy_cursor := decide (fw = 0x020022 ∨ fw = 0x020600)
      debug := if 1 < hw then 2 else 0
      reports_pressure := decide (1 < hw ∧ 0x020800 ≤ fw) }

/-- Hardware generation resolved for a firmware version (`none` when
detection aborts with the unknown-hardware error). -/
def hwVersionOf (fw : Nat) : Option Nat :=
  (elantech_set_properties fw).map (·.hw_version)

/-- C3: every 6-byte v3 frame is classified Debounce exactly on the fixed
debounce frame, else Head by its bit mask, else Tail by its bit mask,
else Unknown; the debounce frame satisfies the Head mask yet is still
classified Debounce, because the debounce test runs first. -/
theorem packet_check_v3_spec : ∀ p : Packet,
    (elantech_packet_check_v3 p = PACKET_DEBOUNCE ↔ p = debouncePacket) ∧
    (elantech_packet_check_v3 p = PACKET_V3_HEAD ↔
      (p ≠ debouncePacket ∧ p.b0 &&& 0x0c = 0x04 ∧ p.b3 &&& 0xcf = 0x02)) ∧
    (elantech_packet_check_v3 p = PACKET_V3_TAIL ↔
      (p ≠ debouncePacket ∧ ¬(p.b0 &&& 0x0c = 0x04 ∧ p.b3 &&& 0xcf = 0x02) ∧
        p.b0 &&& 0x0c = 0x0c ∧ p.b3 &&& 0xce = 0x0c)) ∧
    (elantech_packet_check_v3 p = PACKET_UNKNOWN ↔
      (p ≠ debouncePacket ∧ ¬(p.b0 &&& 0x0c = 0x04 ∧ p.b3 &&& 0xcf = 0x02) ∧
        ¬(p.b0 &&& 0x0c = 0x0c ∧ p.b3 &&& 0xce = 0x0c))) ∧
    (debouncePacket.b0 &&& 0x0c = 0x04 ∧ debouncePacket.b3 &&& 0xcf = 0x02) ∧
    elantech_packet_check_v3 debouncePacket = PACKET_DEBOUNCE := by
  intro p
  unfold elantech_packet_check_v3
  refine ⟨?_, ?_, ?_, ?_, by decide, by decide⟩ <;>
    split_ifs with h1 h2 h3 <;>
      simp_all [PACKET_UNKNOWN, PACKET_DEBOUNCE, PACKET_V3_HEAD, PACKET_V3_TAIL]

/-- C4: the version resolver forces generation 1 below 0x020030 and at
0x020600, otherwise maps the mid nibble `(version >> 16) & 0x0F` 2,4 to
generation 2, 5 to 3, 6 to 4, and any other nibble (such as 3) to the
unknown-hardware error. -/
theorem set_properties_spec (fw : Nat) (hfw : fw < 0x1000000) :
    (fw < 0x020030 ∨ fw = 0x020600 → hwVersionOf fw = some 1) ∧
    (¬(fw < 0x020030 ∨ fw = 0x020600) →
      (((fw >>> 16) &&& 0x0f = 2 ∨ (fw >>> 16) &&& 0x0f = 4) →
        hwVersionOf fw = some 2) ∧
      ((fw >>> 16) &&& 0x0f = 5 → hwVersionOf fw = some 3) ∧
      ((fw >>> 16) &&& 0x0f = 6 → hwVersionOf fw = some 4) ∧
      ((fw >>> 16) &&& 0x0f ≠ 2 → (fw >>> 16) &&& 0x0f ≠ 4 →
        (fw >>> 16) &&& 0x0f ≠ 5 → (fw >>> 16) &&& 0x0f ≠ 6 →
        hwVersionOf fw = none)) ∧
    hwVersionOf 0x010000 = some 1 ∧
    hwVersionOf 0x020030 = some 2 ∧
    hwVersionOf 0x050000 = some 3 ∧
    hwVersionOf 0x030000 = none := by
  have hmask : (fw &&& 0x0f0000) >>> 16 = (fw >>> 16) &&& 0x0f := by
    apply Nat.eq_of_testBit_eq
    intro i
    have hbit : ∀ j, Nat.testBit 0x0f0000 (16 + j) = Nat.testBit 0x0f j := by
      intro j
      match j with
      | 0 => decide
      | 1 => decide
      | 2 => decide
      | 3 => decide
      | k + 4 =>
        rw [Nat.testBit_eq_false_of_lt (n := 0x0f0000)
              (by calc (0x0f0000 : Nat) < 2 ^ 20 := by decide
                    _ ≤ 2 ^ (16 + (k + 4)) := Nat.pow_le_pow_right (by decide) (by omega)),
            Nat.testBit_eq_false_of_lt (n := 0x0f)
              (by calc (0x0f : Nat) < 2 ^ 4 := by decide
                    _ ≤ 2 ^ (k + 4) := Nat.pow_le_pow_right (by decide) (by omega))]
    simp [Nat.testBit_shiftRight, Nat.testBit_and, hbit]
  refine ⟨?_, ?_, by decide, by decide, by decide, by decide⟩
  · intro h
    simp [hwVersionOf, elantech_set_properties, h]
  · intro h
    refine ⟨?_, ?_, ?_, ?_⟩
    · intro h24
      simp [hwVersionOf, elantech_set_properties, if_neg h, hmask, h24]
    · intro h5
      have hne : ¬((fw >>> 16) &&& 0x0f = 2 ∨ (fw >>> 16) &&& 0x0f = 4) := by
        omega
      simp [hwVersionOf, elantech_set_properties, if_neg h, hmask, hne, h5]
    · intro h6
      have hne : ¬((fw >>> 16) &&& 0x0f = 2 ∨ (fw >>> 16) &&& 0x0f = 4) := by
        omega
      simp [hwVersionOf, elantech_set_properties, if_neg h, hmask, hne, h6]
    · intro h2 h4 h5 h6
      have hne : ¬((fw >>> 16) &&& 0x0f = 2 ∨ (fw >>> 16) &&& 0x0f = 4) := by
        omega
      simp [hwVersionOf, elantech_set_properties, if_neg h, hmask, hne, h5, h6]

/-- Witness for `set_properties_spec` at firmware 0x050000. -/
theorem set_properties_spec_witness : hwVersionOf 0x050000 = some 3 :=
  (set_properties_spec 0x050000 (by decide)).2.2.2.2.1

/-! ### Parity table (built in `probe`) -/

/-- The first `n` iterations of the parity loop
(`for (i = 1; i < 256; i++) parity[i] = parity[i & (i-1)] ^ 1;`),
starting from the seeded `parity[0] = 1`. -/
def parityFold (n : Nat) : List Nat :=
  (List.range n).foldl
    (fun a k =>
      let i := k + 1
      a ++ [(a.getD (i &&& (i - 1)) 0) ^^^ 1])
    [1]

/-- The parity table built in `probe`: all 255 loop iterations. -/
def buildParity : List Nat := parityFold 255

/-- The same loop, instrumented to detect reads of entries the loop has
not yet written: entries start as `none` (uninitialized); a read of an
uninitialized entry aborts the whole construction. -/
def parityFoldChecked (n : Nat) : Option (List (Option Nat)) :=
  (List.range n).foldlM
    (fun a k =>
      let i := k + 1
      match a.getD (i &&& (i - 1)) none with
      | none => none
      | some p => some (a.set i (some (p ^^^ 1))))
    ((List.replicate 256 (none : Option Nat)).set 0 (some 1))

/-- The instrumented loop over all 255 iterations. -/
def buildParityChecked : Option (List (Option Nat)) := parityFoldChecked 255

/-- The recurrence as a function of the index alone (first argument is
fuel; the read index decreases strictly, so `i` units of fuel suffice
for index `i`). -/
def parityRecAux : Nat → Nat → Nat
  | _, 0 => 1
  | 0, _ + 1 => 1
  | fuel + 1, i + 1 => parityRecAux fuel ((i + 1) &&& i) ^^^ 1

/-- The value the recurrence assigns to index `i`. -/
def parityRecF (i : Nat) : Nat := parityRecAux i i

/-- Clearing the lowest set bit gives a smaller index: `(i+1) & i ≤ i`. -/
theorem and_pred_le (i : Nat) : (i + 1) &&& i ≤ i := Nat.and_le_right

theorem parityRecAux_congr : ∀ j f1 f2, j ≤ f1 → j ≤ f2 →
    parityRecAux f1 j = parityRecAux f2 j := by
  intro j
  induction j using Nat.strong_induction_on with
  | _ j ih =>
    intro f1 f2 h1 h2
    match j, f1, f2 with
    | 0, f1, f2 =>
        cases f1 <;> cases f2 <;> rfl
    | i + 1, g1 + 1, g2 + 1 =>
        show parityRecAux g1 ((i + 1) &&& i) ^^^ 1 =
          parityRecAux g2 ((i + 1) &&& i) ^^^ 1
        have hlt : (i + 1) &&& i < i + 1 :=
          Nat.lt_succ_of_le (and_pred_le i)
        rw [ih ((i + 1) &&& i) hlt g1 g2
          (le_trans (and_pred_le i) (by omega))
          (le_trans (and_pred_le i) (by omega))]

theorem parityRecF_succ (i : Nat) :
    parityRecF (i + 1) = parityRecF ((i + 1) &&& i) ^^^ 1 := by
  show parityRecAux i ((i + 1) &&& i) ^^^ 1 = _
  rw [parityRecAux_congr ((i + 1) &&& i) i ((i + 1) &&& i)
    (and_pred_le i) (le_refl _)]
  rfl

theorem parityFold_succ (n : Nat) :
    parityFold (n + 1) =
      parityFold n ++ [((parityFold n).getD ((n + 1) &&& n) 0) ^^^ 1] := by
  unfold parityFold
  rw [List.range_succ, List.foldl_append]
  simp

theorem parityFoldChecked_succ (n : Nat) :
    parityFoldChecked (n + 1) =
      (parityFoldChecked n).bind (fun a =>
        match a.getD ((n + 1) &&& n) none with
        | none => none
        | some p => some (a.set (n + 1) (some (p ^^^ 1)))) := by
  unfold parityFoldChecked
  rw [List.range_succ, List.foldlM_append]
  cases hres : (List.range n).foldlM
      (fun a k =>
        let i := k + 1
        match a.getD (i &&& (i - 1)) none with
        | none => none
        | some p => some (a.set i (some (p ^^^ 1))))
      ((List.replicate 256 (none : Option Nat)).set 0 (some 1)) with
  | none => rfl
  | some a =>
      simp only [Option.bind_eq_bind, Option.some_bind, List.foldlM_cons,
        List.foldlM_nil, Nat.add_sub_cancel]
      cases h : a.getD ((n + 1) &&& n) none <;> rfl

/-- Fold characterization of the parity loop: after the first `n`
iterations the list has `n + 1` entries, each equal to the recurrence
value at its index. -/
theorem parityFold_spec : ∀ n : Nat,
    (parityFold n).length = n + 1 ∧
    ∀ i, i ≤ n → (parityFold n).getD i 0 = parityRecF i := by
  intro n
  induction n with
  | zero =>
      refine ⟨rfl, ?_⟩
      intro i hi
      interval_cases i
      rfl
  | succ n ih =>
      obtain ⟨ihlen, ihval⟩ := ih
      rw [parityFold_succ]
      have hread : (parityFold n).getD ((n + 1) &&& n) 0 =
          parityRecF ((n + 1) &&& n) := ihval _ (and_pred_le n)
      constructor
      · simp [ihlen]
      · intro i hi
        rcases Nat.lt_or_ge i (n + 1) with hlt | hge
        · rw [List.getD_append _ _ _ _ (by omega), ihval i (by omega)]
        · have hieq : i = n + 1 := by omega
          subst hieq
          rw [List.getD_append_right _ _ _ _
            (show (parityFold n).length ≤ n + 1 by omega)]
          simp only [ihlen, Nat.sub_self, List.getD_cons_zero]
          rw [hread, ← parityRecF_succ]

/-- Entries of the parity table equal the recurrence values. -/
theorem buildParity_getD (i : Nat) (h : i ≤ 255) :
    buildParity.getD i 0 = parityRecF i :=
  (parityFold_spec 255).2 i h

/-- Fold characterization of the instrumented parity loop: it never
aborts, and after `n` iterations entries `0..n` are initialized while
the list keeps its 256 slots. -/
theorem parityFoldChecked_spec : ∀ n : Nat, n ≤ 255 →
    ∃ t : List (Option Nat),
      parityFoldChecked n = some t ∧
      t.length = 256 ∧ ∀ j, j ≤ n → (t.getD j none).isSome := by
  intro n
  induction n with
  | zero =>
      intro _
      refine ⟨(List.replicate 256 (none : Option Nat)).set 0 (some 1),
        rfl, by rw [List.length_set, List.length_replicate], ?_⟩
      intro j hj
      interval_cases j
      have hlen : (0 : Nat) < (List.replicate 256 (none : Option Nat)).length := by
        rw [List.length_replicate]
        omega
      rw [List.getD_eq_getElem?_getD, List.getElem?_set_self hlen]
      rfl
  | succ n ih =>
      intro hn
      obtain ⟨t, hfold, hlen, hval⟩ := ih (by omega)
      have hread : (t.getD ((n + 1) &&& n) none).isSome :=
        hval _ (and_pred_le n)
      obtain ⟨p, hp⟩ := Option.isSome_iff_exists.mp hread
      refine ⟨t.set (n + 1) (some (p ^^^ 1)), ?_,
        by rw [List.length_set, hlen], ?_⟩
      · rw [parityFoldChecked_succ, hfold, Option.some_bind, hp]
      · intro j hj
        rcases Nat.lt_or_ge j (n + 1) with hlt | hge
        · rw [List.getD_eq_getElem?_getD, List.getElem?_set_ne (by omega),
            ← List.getD_eq_getElem?_getD]
          exact hval j (by omega)
        · have hjeq : j = n + 1 := by omega
          subst hjeq
          rw [List.getD_eq_getElem?_getD, List.getElem?_set_self (by omega)]
          rfl

/-- C10: the parity-table recurrence is well-founded — every read index
`i & (i-1)` is strictly below `i`, so the single left-to-right pass,
seeded with `parity[0] = 1`, never reads an uninitialized entry and
leaves all 256 entries initialized. -/
theorem parity_build_wellfounded :
    (∀ i : Fin 256, 0 < i.val → i.val &&& (i.val - 1) < i.val) ∧
    (∃ t, buildParityChecked = some t ∧ t.length = 256 ∧
      ∀ i : Fin 256, (t.getD i.val none).isSome) := by
  constructor
  · intro i hi
    have := Nat.and_le_right (n := i.val) (m := i.val - 1)
    omega
  · obtain ⟨t, hfold, hlen, hval⟩ := parityFoldChecked_spec 255 (le_refl _)
    exact ⟨t, hfold, hlen, fun i => hval i.val (by omega)⟩

/-- C5 counterexample: at index 0 (also 1) the table disagrees with
`popcount(i) mod 2` — the recurrence is seeded with `parity[0] = 1`
while `popcount(0) mod 2 = 0`. -/
theorem parity_popcount_counterexample :
    buildParity.getD 0 0 = 1 ∧ popcount 0 % 2 = 0 ∧
    ¬ buildParity.getD 0 0 = popcount 0 % 2 ∧
    ¬ buildParity.getD 1 0 = popcount 1 % 2 := by
  have h0 := buildParity_getD 0 (by omega)
  have h1 := buildParity_getD 1 (by omega)
  rw [h0, h1]
  refine ⟨by decide, by decide, by decide, by decide⟩

set_option maxRecDepth 4096 in
/-- C5 (amended): the table stores the complement of the bit parity —
for all i in 0..255, `parity[i] = (popcount(i) + 1) mod 2` (the
odd-parity bit of i). -/
theorem parity_table_odd_parity :
    ∀ i : Fin 256, buildParity.getD i.val 0 = (popcount i.val + 1) % 2 := by
  have hbridge : ∀ i : Fin 256, parityRecF i.val = (popcount i.val + 1) % 2 := by
    decide
  intro i
  rw [buildParity_getD i.val (by omega)]
  exact hbridge i

/-- Witness for `parity_build_wellfounded`: the recurrence at i = 5 reads
index 5 & 4 = 4 < 5. -/
theorem parity_build_wellfounded_witness : 5 &&& 4 < 5 :=
  parity_build_wellfounded.1 ⟨5, by decide⟩ (by decide)

/-! ### Bus operations and command encoders -/

/-- One low-level PS/2 bus operation as placed into a `PS2Request`:
either send a command byte expecting an acknowledgement
(`kPS2C_SendMouseCommandAndCompareAck`) or read one byte from the data
port (`kPS2C_ReadDataPort`). -/
inductive BusOp where
  | sendCmd (b : Nat)
  | readPort
deriving DecidableEq

/-- Modelled from the spec: command byte of the scaling-reset bus command
(`kDP_SetMouseScaling1To1`; the device-command header sits outside the
analyzed sources — this is the standard PS/2 "set scaling 1:1" byte). -/
def kDP_SetMouseScaling1To1 : Nat := 0xe6

/-- Modelled from the spec: command byte of the set-resolution bus
command (`kDP_SetMouseResolution`, standard PS/2 "set resolution"). -/
def kDP_SetMouseResolution : Nat := 0xe8

/-- Modelled from the spec: command byte of the query-info bus command
that triggers the 3-byte reply (`kDP_GetMouseInformation`, standard PS/2
"status request"). -/
def kDP_GetMouseInformation : Nat := 0xe9

/-- Modelled from the spec: `kDP_SetAllMakeRelease`, the 0xf8 byte the
custom Elantech query path sends first (equal to
`ETP_PS2_CUSTOM_COMMAND`). -/
def kDP_SetAllMakeRelease : Nat := 0xf8

/-- `psmouse_sliced_command`: one scaling-reset, then for each 2-bit
group of the opcode (bits 7-6 down to 1-0) a set-resolution command
followed by the group value sent as a command byte. (The C code funnels
these into `request->commands` through a by-reference cursor `j`; the
list below is the sequence it stores.) -/
def psmouse_sliced_command (command : Nat) : List BusOp :=
  BusOp.sendCmd kDP_SetMouseScaling1To1 ::
    (([6, 4, 2, 0].map fun i =>
      [BusOp.sendCmd kDP_SetMouseResolution,
       BusOp.sendCmd ((command >>> i) &&& 3)]).flatten)

/-- `synaptics_send_cmd`: sliced command for the query opcode, then the
query-info command and three data-port reads. -/
def synaptics_send_cmd (c : Nat) : List BusOp :=
  psmouse_sliced_command c ++
    [BusOp.sendCmd kDP_GetMouseInformation, BusOp.readPort, BusOp.readPort,
     BusOp.readPort]

/-- `elantech_send_cmd`: the custom query — 0xf8, the query opcode, the
query-info command, then three data-port reads. -/
def elantech_send_cmd (c : Nat) : List BusOp :=
  [BusOp.sendCmd kDP_SetAllMakeRelease, BusOp.sendCmd c,
   BusOp.sendCmd kDP_GetMouseInformation, BusOp.readPort, BusOp.readPort,
   BusOp.readPort]

/-- `send_cmd`: dispatch between the custom and the sliced query encoder
on the `send_cmd` flag (set to `hw_version >= 3` during detection). -/
def send_cmd (s : Bool) (c : Nat) : List BusOp :=
  if s then elantech_send_cmd c else synaptics_send_cmd c

/-- `elantech_write_reg`: validate the register, then build the
generation-specific write sequence; `none` models the `-1`
invalid-register rejection, which happens before any bus operation is
constructed or submitted. -/
def elantech_write_reg (hw reg val : Nat) : Option (List BusOp) :=
  if reg < 0x07 ∨ 0x26 < reg then none
  else if 0x11 < reg ∧ reg < 0x20 then none
  else some (
    if hw = 1 then
      psmouse_sliced_command ETP_REGISTER_WRITE ++
      psmouse_sliced_command reg ++
      psmouse_sliced_command val ++
      [BusOp.sendCmd kDP_SetMouseScaling1To1]
    else if hw = 2 then
      [BusOp.sendCmd ETP_PS2_CUSTOM_COMMAND, BusOp.sendCmd ETP_REGISTER_WRITE,
       BusOp.sendCmd ETP_PS2_CUSTOM_COMMAND, BusOp.sendCmd reg,
       BusOp.sendCmd ETP_PS2_CUSTOM_COMMAND, BusOp.sendCmd val,
       BusOp.sendCmd kDP_SetMouseScaling1To1]
    else if hw = 3 then
      [BusOp.sendCmd ETP_PS2_CUSTOM_COMMAND, BusOp.sendCmd ETP_REGISTER_READWRITE,
       BusOp.sendCmd ETP_PS2_CUSTOM_COMMAND, BusOp.sendCmd reg,
       BusOp.sendCmd ETP_PS2_CUSTOM_COMMAND, BusOp.sendCmd val,
       BusOp.sendCmd kDP_SetMouseScaling1To1]
    else if hw = 4 then
      [BusOp.sendCmd ETP_PS2_CUSTOM_COMMAND, BusOp.sendCmd ETP_REGISTER_READWRITE,
       BusOp.sendCmd ETP_PS2_CUSTOM_COMMAND, BusOp.sendCmd reg,
       BusOp.sendCmd ETP_PS2_CUSTOM_COMMAND, BusOp.sendCmd ETP_REGISTER_READWRITE,
       BusOp.sendCmd ETP_PS2_CUSTOM_COMMAND, BusOp.sendCmd val,
       BusOp.sendCmd kDP_SetMouseScaling1To1]
    else [])

/-- `elantech_read_reg`: validate the register, then build the
generation-specific read sequence ending with the query-info command and
three data-port reads; `none` models the `-1` invalid-register
rejection before any bus operation. -/
def elantech_read_reg (hw reg : Nat) : Option (List BusOp) :=
  if reg < 0x07 ∨ 0x26 < reg then none
  else if 0x11 < reg ∧ reg < 0x20 then none
  else some (
    (if hw = 1 then
      psmouse_sliced_command ETP_REGISTER_READ ++ psmouse_sliced_command reg
    else if hw = 2 then
      [BusOp.sendCmd ETP_PS2_CUSTOM_COMMAND, BusOp.sendCmd ETP_REGISTER_READ,
       BusOp.sendCmd ETP_PS2_CUSTOM_COMMAND, BusOp.sendCmd reg]
    else if hw = 3 ∨ hw = 4 then
      [BusOp.sendCmd ETP_PS2_CUSTOM_COMMAND, BusOp.sendCmd ETP_REGISTER_READWRITE,
       BusOp.sendCmd ETP_PS2_CUSTOM_COMMAND, BusOp.sendCmd reg]
    else []) ++
    [BusOp.sendCmd kDP_GetMouseInformation, BusOp.readPort, BusOp.readPort,
     BusOp.readPort])

/-- `elantech_read_reg` reply selection: generation 4 takes the second
reply byte, every other generation the first. -/
def elantech_read_reg_result (hw param0 param1 : Nat) : Nat :=
  if hw ≠ 4 then param0 else param1

/-- C7: both register accessors reject registers below 0x07, above 0x26,
or strictly between 0x11 and 0x20, before any bus operation (`none`);
registers 0x06 and 0x15 are rejected, register 0x10 is accepted and a
non-empty generation-appropriate sequence is issued. -/
theorem register_bounds : ∀ hw reg val : Nat,
    ((elantech_write_reg hw reg val = none ↔
        reg < 0x07 ∨ 0x26 < reg ∨ (0x11 < reg ∧ reg < 0x20)) ∧
     (elantech_read_reg hw reg = none ↔
        reg < 0x07 ∨ 0x26 < reg ∨ (0x11 < reg ∧ reg < 0x20))) ∧
    elantech_write_reg hw 0x06 val = none ∧
    elantech_write_reg hw 0x15 val = none ∧
    (1 ≤ hw → hw ≤ 4 →
      elantech_write_reg hw 0x10 val ≠ none ∧
      elantech_write_reg hw 0x10 val ≠ some []) := by
  intro hw reg val
  refine ⟨⟨?_, ?_⟩, ?_, ?_, ?_⟩
  · unfold elantech_write_reg
    split_ifs with h1 h2 <;> simp <;> omega
  · unfold elantech_read_reg
    split_ifs with h1 h2 <;> simp <;> omega
  · unfold elantech_write_reg
    norm_num
  · unfold elantech_write_reg
    norm_num
  · intro h1 h4
    interval_cases hw <;>
      simp [elantech_write_reg, psmouse_sliced_command]

/-- Witness for `register_bounds`: generation 3, register 0x10,
value 0x0b (the sequence `elantech_set_absolute_mode` writes). -/
theorem register_bounds_witness :
    elantech_write_reg 3 0x10 0x0b ≠ none :=
  ((register_bounds 3 0x10 0x0b).2.2.2 (by decide) (by decide)).1

/-- C8 counterexample: for generation 2 the register-write sequence for
register 0x10, value 0x54 (the pair `elantech_set_absolute_mode` issues)
is the custom 0xf8-prefixed sequence, not the sliced encoding the claim
assigns to generations ≤ 2. -/
theorem write_reg_gen2_custom_counterexample :
    elantech_write_reg 2 0x10 0x54 =
      some [BusOp.sendCmd 0xf8, BusOp.sendCmd ETP_REGISTER_WRITE,
            BusOp.sendCmd 0xf8, BusOp.sendCmd 0x10,
            BusOp.sendCmd 0xf8, BusOp.sendCmd 0x54,
            BusOp.sendCmd kDP_SetMouseScaling1To1] ∧
    elantech_write_reg 2 0x10 0x54 ≠
      some (psmouse_sliced_command ETP_REGISTER_WRITE ++
            psmouse_sliced_command 0x10 ++
            psmouse_sliced_command 0x54 ++
            [BusOp.sendCmd kDP_SetMouseScaling1To1]) := by
  constructor <;> decide

/-- C8 (amended): for register read/write, generation 1 uses the sliced
encoding and generations 2-4 use the custom encoding (0xf8 before each
sub-opcode, register and value byte); the generation ≥ 3 threshold
governs the query path `send_cmd`, which is custom for generations 3-4
and sliced (Synaptics-style) for generations 1-2. -/
theorem register_encoding_by_generation : ∀ reg val : Nat,
    ¬(reg < 0x07 ∨ 0x26 < reg) → ¬(0x11 < reg ∧ reg < 0x20) →
    (elantech_write_reg 1 reg val =
        some (psmouse_sliced_command ETP_REGISTER_WRITE ++
              psmouse_sliced_command reg ++
              psmouse_sliced_command val ++
              [BusOp.sendCmd kDP_SetMouseScaling1To1]) ∧
     elantech_read_reg 1 reg =
        some (psmouse_sliced_command ETP_REGISTER_READ ++
              psmouse_sliced_command reg ++
              [BusOp.sendCmd kDP_GetMouseInformation, BusOp.readPort,
               BusOp.readPort, BusOp.readPort])) ∧
    (∀ hw, hw = 2 ∨ hw = 3 ∨ hw = 4 →
      (elantech_write_reg hw reg val =
        some ([BusOp.sendCmd ETP_PS2_CUSTOM_COMMAND,
               BusOp.sendCmd (if hw = 2 then ETP_REGISTER_WRITE
                              else ETP_REGISTER_READWRITE),
               BusOp.sendCmd ETP_PS2_CUSTOM_COMMAND, BusOp.sendCmd reg] ++
              (if hw = 4 then
                [BusOp.sendCmd ETP_PS2_CUSTOM_COMMAND,
                 BusOp.sendCmd ETP_REGISTER_READWRITE] else []) ++
              [BusOp.sendCmd ETP_PS2_CUSTOM_COMMAND, BusOp.sendCmd val,
               BusOp.sendCmd kDP_SetMouseScaling1To1]) ∧
       elantech_read_reg hw reg =
        some ([BusOp.sendCmd ETP_PS2_CUSTOM_COMMAND,
               BusOp.sendCmd (if hw = 2 then ETP_REGISTER_READ
                              else ETP_REGISTER_READWRITE),
               BusOp.sendCmd ETP_PS2_CUSTOM_COMMAND, BusOp.sendCmd reg] ++
              [BusOp.sendCmd kDP_GetMouseInformation, BusOp.readPort,
               BusOp.readPort, BusOp.readPort]))) ∧
    (∀ fw props, elantech_set_properties fw = some props →
      (props.send_cmd = true ↔ 3 ≤ props.hw_version) ∧
      send_cmd true ETP_FW_ID_QUERY = elantech_send_cmd ETP_FW_ID_QUERY ∧
      send_cmd false ETP_FW_ID_QUERY = synaptics_send_cmd ETP_FW_ID_QUERY) := by
  intro reg val h1 h2
  refine ⟨?_, ?_, ?_⟩
  · constructor <;> simp [elantech_write_reg, elantech_read_reg, h1, h2]
  · rintro hw (rfl | rfl | rfl) <;>
      constructor <;>
        simp [elantech_write_reg, elantech_read_reg, h1, h2]
  · intro fw props hp
    refine ⟨?_, rfl, rfl⟩
    unfold elantech_set_properties at hp
    simp only [Option.map_eq_some'] at hp
    obtain ⟨hw, _, rfl⟩ := hp
    simp

/-- Witness for `register_encoding_by_generation` at register 0x10,
value 0x54. -/
theorem register_encoding_witness :
    elantech_write_reg 1 0x10 0x54 =
      some (psmouse_sliced_command ETP_REGISTER_WRITE ++
            psmouse_sliced_command 0x10 ++
            psmouse_sliced_command 0x54 ++
            [BusOp.sendCmd kDP_SetMouseScaling1To1]) :=
  ((register_encoding_by_generation 0x10 0x54 (by decide) (by decide)).1).1

/-- C9 counterexample: the sliced encoder emits exactly one scaling-reset
command (before the first 2-bit group), not one per group: for opcode 0
the emitted sequence differs from the per-group form demanded by the
claim and contains a single scaling-reset. -/
theorem sliced_command_counterexample :
    psmouse_sliced_command 0x00 ≠
      (([6, 4, 2, 0].map fun i =>
        [BusOp.sendCmd kDP_SetMouseScaling1To1,
         BusOp.sendCmd kDP_SetMouseResolution,
         BusOp.sendCmd (((0x00 : Nat) >>> i) &&& 3)]).flatten) ∧
    (psmouse_sliced_command 0x00).count
        (BusOp.sendCmd kDP_SetMouseScaling1To1) = 1 := by
  constructor <;> decide

/-- C9 (amended): the sliced encoder emits one scaling-reset command
before the first group, then for each of the four 2-bit groups of the
opcode (bits 7-6, 5-4, 3-2, 1-0, high to low) one set-resolution command
followed by the 2-bit slice value. -/
theorem sliced_command_layout (c : Nat) :
    psmouse_sliced_command c =
      [BusOp.sendCmd kDP_SetMouseScaling1To1,
       BusOp.sendCmd kDP_SetMouseResolution, BusOp.sendCmd (c / 64 % 4),
       BusOp.sendCmd kDP_SetMouseResolution, BusOp.sendCmd (c / 16 % 4),
       BusOp.sendCmd kDP_SetMouseResolution, BusOp.sendCmd (c / 4 % 4),
       BusOp.sendCmd kDP_SetMouseResolution, BusOp.sendCmd (c % 4)] := by
  have h3 : ∀ x : Nat, x &&& 3 = x % 4 := fun x => by
    have := Nat.and_pow_two_sub_one_eq_mod x 2
    norm_num at this
    exact this
  simp [psmouse_sliced_command, h3, Nat.shiftRight_eq_div_pow]


/-! ### v3 absolute report and interrupt state machine -/

/-- A point as stored in an `IOGPoint` (two `SInt16` fields). -/
structure GPoint where
  x : Int
  y : Int

/-- A call to `dispatchRelativePointerEvent(dx, dy, buttons, now)`. -/
structure Event where
  dx : Int
  dy : Int
  buttons : Nat
deriving DecidableEq

/-- The driver fields read or written on the byte-arrival path:
`_packetBuffer`/`_packetByteCount`, the profile fields consulted by the
decode, and the gesture state (`last_fingers`, `tapToClick`,
`tapInRange[5]`, `validLastPoint`/`lastPoint`, `startPoint[5]`/
`validStartPoint[5]`, `etd->mt[0]`). -/
structure DriverState where
  packetBuffer : List Nat
  packetByteCount : Nat
  hw_version : Nat
  pktsize : Nat
  y_max : Nat
  last_fingers : Nat
  tapToClick : Bool
  tapInRange : List Bool
  validLastPoint : Bool
  lastPoint : GPoint
  startPoint : List GPoint
  validStartPoint : List Bool
  mt0 : GPoint

/-- v3 X decode: `((packet[1] & 0x0f) << 8) | packet[2]`. -/
def decode_x (b1 b2 : Nat) : Nat := ((b1 &&& 0x0f) <<< 8) ||| b2

/-- The 12-bit raw Y field: `((packet[4] & 0x0f) << 8) | packet[5]`. -/
def decode_y_raw (b4 b5 : Nat) : Nat := ((b4 &&& 0x0f) <<< 8) ||| b5

/-- v3 Y decode: `etd->y_max - raw`, computed in C `unsigned int`
arithmetic (wraps modulo `2^32` when the raw field exceeds `y_max`). -/
def decode_y (ymax b4 b5 : Nat) : Nat :=
  (ymax % 4294967296 + (4294967296 - decode_y_raw b4 b5 % 4294967296)) %
    4294967296

/-- Button bits read from byte 0: bit 0 left, bit 1 right. -/
def rawButtons (b0 : Nat) : Nat :=
  let b := if b0 &&& 0x1 ≠ 0 then 0 ||| 0x1 else 0
  if b0 &&& 0x2 ≠ 0 then b ||| 0x2 else b

/-- Finger count: bits 7-6 of byte 0. -/
def fingersOf (p : Packet) : Nat := (p.b0 &&& 0xc0) >>> 6

/-- The tap-radius test the report function applies to a decoded point
against a latched start point: the displacement in either axis exceeds
`ETP_TAPTOCLICK_DIST` (32) units (computed, as in the source, with the
wrapped C subtraction). -/
def tapExceeded (x1 y1 : Nat) (sp : GPoint) : Bool :=
  decide (cSub x1 sp.x < -ETP_TAPTOCLICK_DIST ∨
    ETP_TAPTOCLICK_DIST < cSub x1 sp.x ∨
    cSub y1 sp.y < -ETP_TAPTOCLICK_DIST ∨
    ETP_TAPTOCLICK_DIST < cSub y1 sp.y)

/-- `elantech_report_absolute_v3`: decode one classified v3 frame,
update the gesture state and return the dispatched pointer events.
In the 0-finger branch the source clears `tapToClick` after synthesizing
a click and unconditionally re-arms it a few lines later, so the state
it returns always has `tapToClick = true`.  In the 1-finger branch the
source guards the tap-radius check with `if (tapInRange)`, which tests
the array object itself and is therefore always taken.  In the 2-finger
head branch `etd->mt[0]` is assigned outside the nonzero-coordinate
check.  The function ends by recording the finger count and resetting
`_packetByteCount` to 0. -/
def elantech_report_absolute_v3 (s : DriverState) (p : Packet)
    (packet_type : Nat) : DriverState × List Event :=
  let fingers := fingersOf p
  let buttons := rawButtons p.b0
  if fingers = 0 then
    let buttons :=
      if s.tapToClick ∧ 0 < s.last_fingers ∧ s.last_fingers ≤ 2 then
        if s.last_fingers = 1 then buttons ||| 0x1
        else if s.last_fingers = 2 then buttons ||| 0x2
        else buttons
      else buttons
    ({ s with validLastPoint := false
              validStartPoint := List.replicate 5 false
              tapInRange := List.replicate 5 true
              tapToClick := true
              last_fingers := fingers
              packetByteCount := 0 },
     [⟨0, 0, buttons⟩])
  else if fingers = 3 then
    ({ s with last_fingers := fingers, packetByteCount := 0 }, [])
  else if fingers = 1 then
    let x1 := decode_x p.b1 p.b2
    let y1 := decode_y s.y_max p.b4 p.b5
    if x1 ≠ 0 ∧ y1 ≠ 0 then
      let evs :=
        if s.validLastPoint then
          [⟨cSub x1 s.lastPoint.x, cSub y1 s.lastPoint.y, buttons⟩]
        else []
      let vsp0 := s.validStartPoint.getD 0 false
      let tir0 :=
        if vsp0 then
          if tapExceeded x1 y1 (s.startPoint.getD 0 ⟨0, 0⟩) then false
          else s.tapInRange.getD 0 true
        else s.tapInRange.getD 0 true
      let tap :=
        if vsp0 then (if tir0 then s.tapToClick else false)
        else s.tapToClick
      ({ s with lastPoint := ⟨i16 x1, i16 y1⟩
                validLastPoint := true
                tapInRange := s.tapInRange.set 0 tir0
                tapToClick := tap
                startPoint :=
                  if vsp0 then s.startPoint
                  else s.startPoint.set 0 ⟨i16 x1, i16 y1⟩
                validStartPoint :=
                  if vsp0 then s.validStartPoint
                  else s.validStartPoint.set 0 true
                last_fingers := fingers
                packetByteCount := 0 }, evs)
    else ({ s with last_fingers := fingers, packetByteCount := 0 }, [])
  else
    if packet_type = PACKET_V3_HEAD then
      let x1 := decode_x p.b1 p.b2
      let y1 := decode_y s.y_max p.b4 p.b5
      if x1 ≠ 0 ∧ y1 ≠ 0 then
        let vsp0 := s.validStartPoint.getD 0 false
        let tir0old := s.tapInRange.getD 0 true
        let tir0 :=
          if vsp0 ∧ tir0old then
            if tapExceeded x1 y1 (s.startPoint.getD 0 ⟨0, 0⟩) then false
            else tir0old
          else tir0old
        let tap :=
          if vsp0 ∧ tir0old then (if tir0 then s.tapToClick else false)
          else s.tapToClick
        ({ s with tapInRange := s.tapInRange.set 0 tir0
                  tapToClick := tap
                  startPoint :=
                    if vsp0 then s.startPoint
                    else s.startPoint.set 0 ⟨i16 x1, i16 y1⟩
                  validStartPoint :=
                    if vsp0 then s.validStartPoint
                    else s.validStartPoint.set 0 true
                  mt0 := ⟨i16 x1, i16 y1⟩
                  last_fingers := fingers
                  packetByteCount := 0 }, [])
      else
        ({ s with mt0 := ⟨i16 x1, i16 y1⟩
                  last_fingers := fingers
                  packetByteCount := 0 }, [])
    else
      let x2 := decode_x p.b1 p.b2
      let y2 := decode_y s.y_max p.b4 p.b5
      if x2 ≠ 0 ∧ y2 ≠ 0 then
        let vsp1 := s.validStartPoint.getD 1 false
        let tir1old := s.tapInRange.getD 1 true
        let tir1 :=
          if vsp1 ∧ tir1old then
            if tapExceeded x2 y2 (s.startPoint.getD 1 ⟨0, 0⟩) then false
            else tir1old
          else tir1old
        let tap :=
          if vsp1 ∧ tir1old then (if tir1 then s.tapToClick else false)
          else s.tapToClick
        ({ s with tapInRange := s.tapInRange.set 1 tir1
                  tapToClick := tap
                  startPoint :=
                    if vsp1 then s.startPoint
                    else s.startPoint.set 1 ⟨i16 x2, i16 y2⟩
                  validStartPoint :=
                    if vsp1 then s.validStartPoint
                    else s.validStartPoint.set 1 true
                  last_fingers := fingers
                  packetByteCount := 0 }, [])
      else ({ s with last_fingers := fingers, packetByteCount := 0 }, [])

/-- `interruptOccurred`: store the byte at `_packetByteCount` and
increment the count; when the count reaches `pktsize`, classify (for
generation 3) and decode Head/Tail frames; Debounce and Unknown frames
are dropped without any further state change — in particular without
resetting `_packetByteCount`.  (The `List.set` drops a write at an index
beyond 5; in C that write runs past the end of the 6-byte
`_packetBuffer`.)  The generation 1, 2 and 4 decode bodies are commented
out in the source. -/
def interruptOccurred (s : DriverState) (data : Nat) :
    DriverState × List Event :=
  let s1 := { s with packetBuffer := s.packetBuffer.set s.packetByteCount data
                     packetByteCount := s.packetByteCount + 1 }
  if s1.packetByteCount = s1.pktsize then
    if s1.hw_version = 3 then
      let p : Packet :=
        ⟨s1.packetBuffer.getD 0 0, s1.packetBuffer.getD 1 0,
         s1.packetBuffer.getD 2 0, s1.packetBuffer.getD 3 0,
         s1.packetBuffer.getD 4 0, s1.packetBuffer.getD 5 0⟩
      let packet_type := elantech_packet_check_v3 p
      if packet_type ≠ PACKET_DEBOUNCE ∧ packet_type ≠ PACKET_UNKNOWN then
        elantech_report_absolute_v3 s1 p packet_type
      else (s1, [])
    else (s1, [])
  else (s1, [])

/-- Feed a byte sequence through `interruptOccurred`, collecting all
dispatched events. -/
def processBytes (s : DriverState) (l : List Nat) :
    DriverState × List Event :=
  l.foldl (fun acc b =>
    let r := interruptOccurred acc.1 b
    (r.1, acc.2 ++ r.2)) (s, [])

/-- The decoder/gesture state `start()` leaves behind for a generation-3
device with the given `y_max`: empty frame buffer, no fingers, tap
eligibility armed, all slots invalid and in range. -/
def startState (ymax : Nat) : DriverState :=
  { packetBuffer := List.replicate 6 0
    packetByteCount := 0
    hw_version := 3
    pktsize := 6
    y_max := ymax
    last_fingers := 0
    tapToClick := true
    tapInRange := List.replicate 5 true
    validLastPoint := false
    lastPoint := ⟨0, 0⟩
    startPoint := List.replicate 5 ⟨0, 0⟩
    validStartPoint := List.replicate 5 false
    mt0 := ⟨0, 0⟩ }

/-- C1 (code evaluated at the failing input): partial frames produce no
event and leave the count at the number of bytes seen; a complete Head
frame resets the count to 0; but a complete Debounce frame leaves the
count at 6 instead of resetting it, and after it the driver never again
reaches the `count == pktsize` condition — a further complete Head frame
is neither classified nor decoded (no event, count keeps growing). -/
theorem interrupt_debounce_no_reset :
    ((processBytes (startState 500)
        [0xc4, 0xff, 0xff, 0x02, 0xff]).1.packetByteCount = 5 ∧
     (processBytes (startState 500) [0xc4, 0xff, 0xff, 0x02, 0xff]).2 = []) ∧
    (processBytes (startState 500)
        [0x04, 0x01, 0x23, 0x02, 0x00, 0x64]).1.packetByteCount = 0 ∧
    ((processBytes (startState 500)
        [0xc4, 0xff, 0xff, 0x02, 0xff, 0xff]).1.packetByteCount = 6 ∧
     (processBytes (startState 500) [0xc4, 0xff, 0xff, 0x02, 0xff, 0xff]).2 = []) ∧
    ((processBytes (startState 500)
        ([0xc4, 0xff, 0xff, 0x02, 0xff, 0xff] ++
         [0x04, 0x01, 0x23, 0x02, 0x00, 0x64])).1.packetByteCount = 12 ∧
     (processBytes (startState 500)
        ([0xc4, 0xff, 0xff, 0x02, 0xff, 0xff] ++
         [0x04, 0x01, 0x23, 0x02, 0x00, 0x64])).2 = []) := by
  decide


/-! ### Arithmetic facts about the decode helpers -/

/-- The decoded X value is a 12-bit quantity. -/
theorem decode_x_lt (b1 b2 : Nat) (hb2 : b2 < 256) :
    decode_x b1 b2 < 4096 := by
  have hx : (b1 &&& 0x0f) <<< 8 < 2 ^ 12 := by
    have := Nat.and_le_right (n := b1) (m := 0x0f)
    rw [Nat.shiftLeft_eq]
    norm_num
    omega
  have hb : b2 < 2 ^ 12 := by norm_num; omega
  have := Nat.or_lt_two_pow hx hb
  unfold decode_x
  norm_num at this ⊢
  exact this

/-- The raw Y field is a 12-bit quantity. -/
theorem decode_y_raw_lt (b4 b5 : Nat) (hb5 : b5 < 256) :
    decode_y_raw b4 b5 < 4096 := by
  have hx : (b4 &&& 0x0f) <<< 8 < 2 ^ 12 := by
    have := Nat.and_le_right (n := b4) (m := 0x0f)
    rw [Nat.shiftLeft_eq]
    norm_num
    omega
  have hb : b5 < 2 ^ 12 := by norm_num; omega
  have := Nat.or_lt_two_pow hx hb
  unfold decode_y_raw
  norm_num at this ⊢
  exact this

/-- When the raw Y field does not exceed `y_max` (and `y_max` fits in an
`unsigned int`), the wrapped Y decode is the plain subtraction. -/
theorem decode_y_eq (ymax b4 b5 : Nat) (hy : ymax < 4294967296)
    (hraw : decode_y_raw b4 b5 ≤ ymax) :
    decode_y ymax b4 b5 = ymax - decode_y_raw b4 b5 := by
  unfold decode_y
  have h1 : ymax % 4294967296 = ymax := Nat.mod_eq_of_lt hy
  have h2 : decode_y_raw b4 b5 % 4294967296 = decode_y_raw b4 b5 :=
    Nat.mod_eq_of_lt (lt_of_le_of_lt hraw hy)
  rw [h1, h2]
  omega

/-- 16-bit truncation is the identity on values below 32768. -/
theorem i16_id (n : Nat) (h : n < 32768) : i16 n = n := by
  unfold i16
  rw [Nat.mod_eq_of_lt (by omega)]
  rw [if_pos h]

/-- In the ranges the decoder actually produces, the wrapped C
subtraction agrees with the mathematical difference. -/
theorem cSub_eq (a : Nat) (b : Int) (ha : a < 2147483648) (hb0 : 0 ≤ b)
    (hb : b < 2147483648) : cSub a b = (a : Int) - b := by
  unfold cSub toI32 u32ofInt
  have hbm : b % 4294967296 = b := Int.emod_eq_of_lt hb0 (by omega)
  rw [hbm]
  split <;> omega

/-- C6: for a 1-finger v3 frame whose decoded coordinates are nonzero
(and whose Y field does not underflow), the report function caches the
point X = `((byte1 & 0x0F) << 8) | byte2`,
Y = `y_max - (((byte4 & 0x0F) << 8) | byte5)`; in particular
byte1 = 0x01, byte2 = 0x23 decode to X = 291, and byte4 = byte5 = 0 with
y_max = 500 decode to Y = 500. -/
theorem single_finger_decode :
    (∀ (s : DriverState) (p : Packet) (t : Nat),
      p.b2 < 256 → p.b5 < 256 →
      fingersOf p = 1 →
      s.y_max < 32768 →
      decode_y_raw p.b4 p.b5 ≤ s.y_max →
      decode_x p.b1 p.b2 ≠ 0 →
      s.y_max - decode_y_raw p.b4 p.b5 ≠ 0 →
      (elantech_report_absolute_v3 s p t).1.lastPoint =
        ⟨((((p.b1 &&& 0x0f) <<< 8) ||| p.b2 : Nat) : Int),
         ((s.y_max : Int) - ((((p.b4 &&& 0x0f) <<< 8) ||| p.b5 : Nat) : Int))⟩) ∧
    decode_x 0x01 0x23 = 291 ∧ decode_y 500 0x00 0x00 = 500 := by
  refine ⟨?_, by decide, by decide⟩
  intro s p t hb2 hb5 hf hym hraw hx hy
  have hyeq : decode_y s.y_max p.b4 p.b5 = s.y_max - decode_y_raw p.b4 p.b5 :=
    decode_y_eq _ _ _ (by omega) hraw
  have hy' : decode_y s.y_max p.b4 p.b5 ≠ 0 := by rw [hyeq]; exact hy
  have hxlt : decode_x p.b1 p.b2 < 4096 := decode_x_lt _ _ hb2
  have hylt : decode_y s.y_max p.b4 p.b5 < 32768 := by
    rw [hyeq]; omega
  unfold elantech_report_absolute_v3
  rw [hf]
  norm_num [hx, hy']
  rw [i16_id _ (by omega), i16_id _ hylt, hyeq]
  constructor
  · rfl
  · show ((s.y_max - decode_y_raw p.b4 p.b5 : Nat) : Int) = _
    have : decode_y_raw p.b4 p.b5 = (((p.b4 &&& 0x0f) <<< 8) ||| p.b5 : Nat) := rfl
    omega

/-- Witness for `single_finger_decode`: a 1-finger frame with
byte1 = 0x01, byte2 = 0x23, byte4 = byte5 = 0 on a device with
y_max = 500 caches the point (291, 500). -/
theorem single_finger_decode_witness :
    (elantech_report_absolute_v3 (startState 500)
        ⟨0x44, 0x01, 0x23, 0x02, 0x00, 0x00⟩ PACKET_V3_HEAD).1.lastPoint =
      ⟨291, 500⟩ := by
  have := single_finger_decode.1 (startState 500)
    ⟨0x44, 0x01, 0x23, 0x02, 0x00, 0x00⟩ PACKET_V3_HEAD
    (by decide) (by decide) (by decide) (by decide) (by decide) (by decide)
    (by decide)
  simpa using this


/-! ### Tap-gesture machinery (claim C2) -/

/-- Shape invariant: the three per-slot arrays have the 5 entries
(`ETP_MAX_FINGERS`) they are declared with. -/
def WFg (s : DriverState) : Prop :=
  s.validStartPoint.length = 5 ∧ s.tapInRange.length = 5 ∧
  s.startPoint.length = 5

/-- A well-formed single-finger sample frame: byte values in range, the
finger-count field 1, nonzero decoded coordinates, and a Y field that
does not underflow `y_max`. -/
def goodSample (ymax : Nat) (p : Packet) : Prop :=
  p.b2 < 256 ∧ p.b5 < 256 ∧ fingersOf p = 1 ∧
  decode_x p.b1 p.b2 ≠ 0 ∧ decode_y_raw p.b4 p.b5 ≤ ymax ∧
  ymax - decode_y_raw p.b4 p.b5 ≠ 0

/-- The decoded point of the frame stays within the 32-unit tap radius
of the start point `(x₀, y₀)` in both axes. -/
def withinTap (x₀ y₀ ymax : Nat) (p : Packet) : Prop :=
  -32 ≤ (decode_x p.b1 p.b2 : Int) - x₀ ∧
  (decode_x p.b1 p.b2 : Int) - x₀ ≤ 32 ∧
  -32 ≤ ((ymax - decode_y_raw p.b4 p.b5 : Nat) : Int) - y₀ ∧
  ((ymax - decode_y_raw p.b4 p.b5 : Nat) : Int) - y₀ ≤ 32

/-- Run a sequence of classified frames through the report function,
keeping only the state. -/
def runSamples (s : DriverState) (l : List Packet) : DriverState :=
  l.foldl (fun st p => (elantech_report_absolute_v3 st p PACKET_V3_HEAD).1) s

theorem exists5 {α : Type} : ∀ (l : List α), l.length = 5 →
    ∃ a0 a1 a2 a3 a4, l = [a0, a1, a2, a3, a4] := by
  intro l h
  match l with
  | [a0, a1, a2, a3, a4] => exact ⟨a0, a1, a2, a3, a4, rfl⟩
  | [] => simp at h
  | [_] => simp at h
  | [_, _] => simp at h
  | [_, _, _] => simp at h
  | [_, _, _, _] => simp at h
  | _ :: _ :: _ :: _ :: _ :: _ :: _ => simp at h

/-- Processing a good single-finger frame: the state stays well formed,
`y_max` is unchanged, the finger count becomes 1, slot 0 gains a valid
start point, an already-latched start point is unchanged, and cleared
tap eligibility stays cleared. -/
theorem report_step1_shape (s : DriverState) (p : Packet) (t : Nat)
    (hwf : WFg s) (hym : s.y_max < 32768) (hg : goodSample s.y_max p) :
    WFg (elantech_report_absolute_v3 s p t).1 ∧
    (elantech_report_absolute_v3 s p t).1.y_max = s.y_max ∧
    (elantech_report_absolute_v3 s p t).1.last_fingers = 1 ∧
    (elantech_report_absolute_v3 s p t).1.validStartPoint.getD 0 false = true ∧
    (s.validStartPoint.getD 0 false = true →
      (elantech_report_absolute_v3 s p t).1.startPoint.getD 0 ⟨0, 0⟩ =
        s.startPoint.getD 0 ⟨0, 0⟩) ∧
    (s.tapToClick = false →
      (elantech_report_absolute_v3 s p t).1.tapToClick = false) := by
  obtain ⟨hb2, hb5, hf, hx, hraw, hy⟩ := hg
  obtain ⟨hL1, hL2, hL3⟩ := hwf
  have hyeq := decode_y_eq s.y_max p.b4 p.b5 (by omega) hraw
  have hy' : decode_y s.y_max p.b4 p.b5 ≠ 0 := by rw [hyeq]; exact hy
  obtain ⟨v0, v1, v2, v3, v4, hV⟩ := exists5 s.validStartPoint hL1
  obtain ⟨r0, r1, r2, r3, r4, hR⟩ := exists5 s.tapInRange hL2
  obtain ⟨q0, q1, q2, q3, q4, hQ⟩ := exists5 s.startPoint hL3
  simp only [elantech_report_absolute_v3, hf]
  norm_num [hx, hy', WFg, hV, hR, hQ]
  cases v0 <;> cases s.tapToClick <;> simp

/-- Processing a good single-finger frame on a state with no latched
start point for slot 0: the current point is latched as the start point,
and the in-range flag and tap eligibility are unchanged. -/
theorem report_step1_first (s : DriverState) (p : Packet) (t : Nat)
    (hwf : WFg s) (hym : s.y_max < 32768) (hg : goodSample s.y_max p)
    (hv : s.validStartPoint.getD 0 false = false) :
    (elantech_report_absolute_v3 s p t).1.startPoint.getD 0 ⟨0, 0⟩ =
      ⟨(decode_x p.b1 p.b2 : Int),
       ((s.y_max - decode_y_raw p.b4 p.b5 : Nat) : Int)⟩ ∧
    (elantech_report_absolute_v3 s p t).1.tapInRange.getD 0 true =
      s.tapInRange.getD 0 true ∧
    (elantech_report_absolute_v3 s p t).1.tapToClick = s.tapToClick := by
  obtain ⟨hb2, hb5, hf, hx, hraw, hy⟩ := hg
  obtain ⟨hL1, hL2, hL3⟩ := hwf
  have hyeq := decode_y_eq s.y_max p.b4 p.b5 (by omega) hraw
  have hy' : decode_y s.y_max p.b4 p.b5 ≠ 0 := by rw [hyeq]; exact hy
  have hxlt := decode_x_lt p.b1 p.b2 hb2
  have hylt : decode_y s.y_max p.b4 p.b5 < 32768 := by rw [hyeq]; omega
  obtain ⟨v0, v1, v2, v3, v4, hV⟩ := exists5 s.validStartPoint hL1
  obtain ⟨r0, r1, r2, r3, r4, hR⟩ := exists5 s.tapInRange hL2
  obtain ⟨q0, q1, q2, q3, q4, hQ⟩ := exists5 s.startPoint hL3
  rw [hV] at hv
  simp at hv
  simp only [elantech_report_absolute_v3, hf]
  norm_num [hx, hy', hV, hR, hQ, hv]
  rw [i16_id _ (by omega), i16_id _ hylt, hyeq]
  exact ⟨rfl, rfl⟩

/-- Processing a good single-finger frame that stays within the tap
radius of the latched start point: the in-range flag is preserved, and
tap eligibility survives exactly when the slot was still in range. -/
theorem report_step1_within (s : DriverState) (p : Packet) (t : Nat)
    (x₀ y₀ : Nat)
    (hwf : WFg s) (hym : s.y_max < 32768) (hg : goodSample s.y_max p)
    (hx₀ : x₀ < 32768) (hy₀ : y₀ < 32768)
    (hv : s.validStartPoint.getD 0 false = true)
    (hsp : s.startPoint.getD 0 ⟨0, 0⟩ = ⟨(x₀ : Int), (y₀ : Int)⟩)
    (hin : withinTap x₀ y₀ s.y_max p) :
    (elantech_report_absolute_v3 s p t).1.tapInRange.getD 0 true =
      s.tapInRange.getD 0 true ∧
    (elantech_report_absolute_v3 s p t).1.tapToClick =
      (if s.tapInRange.getD 0 true then s.tapToClick else false) := by
  obtain ⟨hb2, hb5, hf, hx, hraw, hy⟩ := hg
  obtain ⟨hL1, hL2, hL3⟩ := hwf
  have hyeq := decode_y_eq s.y_max p.b4 p.b5 (by omega) hraw
  have hy' : decode_y s.y_max p.b4 p.b5 ≠ 0 := by rw [hyeq]; exact hy
  have hxlt := decode_x_lt p.b1 p.b2 hb2
  have hylt : decode_y s.y_max p.b4 p.b5 < 32768 := by rw [hyeq]; omega
  obtain ⟨hin1, hin2, hin3, hin4⟩ := hin
  obtain ⟨v0, v1, v2, v3, v4, hV⟩ := exists5 s.validStartPoint hL1
  obtain ⟨r0, r1, r2, r3, r4, hR⟩ := exists5 s.tapInRange hL2
  obtain ⟨q0, q1, q2, q3, q4, hQ⟩ := exists5 s.startPoint hL3
  rw [hV] at hv
  rw [hQ] at hsp
  simp at hv hsp
  have hq0x : q0.x = (x₀ : Int) := by rw [hsp]
  have hq0y : q0.y = (y₀ : Int) := by rw [hsp]
  have hdx : cSub (decode_x p.b1 p.b2) q0.x = (decode_x p.b1 p.b2 : Int) - x₀ := by
    rw [hq0x]
    exact cSub_eq _ _ (by omega) (by positivity) (by omega)
  have hdy : cSub (decode_y s.y_max p.b4 p.b5) q0.y =
      ((s.y_max - decode_y_raw p.b4 p.b5 : Nat) : Int) - y₀ := by
    rw [hq0y, hyeq]
    exact cSub_eq _ _ (by omega) (by positivity) (by omega)
  have hex : tapExceeded (decode_x p.b1 p.b2) (decode_y s.y_max p.b4 p.b5)
      q0 = false := by
    unfold tapExceeded
    rw [hdx, hdy]
    simp only [decide_eq_false_iff_not]
    unfold ETP_TAPTOCLICK_DIST
    omega
  simp only [elantech_report_absolute_v3, hf]
  norm_num [hx, hy', hV, hR, hQ, hv, hex]

/-- Processing a good single-finger frame that leaves the tap radius of
the latched start point: tap eligibility is cleared. -/
theorem report_step1_exceed (s : DriverState) (p : Packet) (t : Nat)
    (x₀ y₀ : Nat)
    (hwf : WFg s) (hym : s.y_max < 32768) (hg : goodSample s.y_max p)
    (hx₀ : x₀ < 32768) (hy₀ : y₀ < 32768)
    (hv : s.validStartPoint.getD 0 false = true)
    (hsp : s.startPoint.getD 0 ⟨0, 0⟩ = ⟨(x₀ : Int), (y₀ : Int)⟩)
    (hout : ¬ withinTap x₀ y₀ s.y_max p) :
    (elantech_report_absolute_v3 s p t).1.tapToClick = false := by
  obtain ⟨hb2, hb5, hf, hx, hraw, hy⟩ := hg
  obtain ⟨hL1, hL2, hL3⟩ := hwf
  have hyeq := decode_y_eq s.y_max p.b4 p.b5 (by omega) hraw
  have hy' : decode_y s.y_max p.b4 p.b5 ≠ 0 := by rw [hyeq]; exact hy
  have hxlt := decode_x_lt p.b1 p.b2 hb2
  have hylt : decode_y s.y_max p.b4 p.b5 < 32768 := by rw [hyeq]; omega
  obtain ⟨v0, v1, v2, v3, v4, hV⟩ := exists5 s.validStartPoint hL1
  obtain ⟨r0, r1, r2, r3, r4, hR⟩ := exists5 s.tapInRange hL2
  obtain ⟨q0, q1, q2, q3, q4, hQ⟩ := exists5 s.startPoint hL3
  rw [hV] at hv
  rw [hQ] at hsp
  simp at hv hsp
  have hq0x : q0.x = (x₀ : Int) := by rw [hsp]
  have hq0y : q0.y = (y₀ : Int) := by rw [hsp]
  have hdx : cSub (decode_x p.b1 p.b2) q0.x = (decode_x p.b1 p.b2 : Int) - x₀ := by
    rw [hq0x]
    exact cSub_eq _ _ (by omega) (by positivity) (by omega)
  have hdy : cSub (decode_y s.y_max p.b4 p.b5) q0.y =
      ((s.y_max - decode_y_raw p.b4 p.b5 : Nat) : Int) - y₀ := by
    rw [hq0y, hyeq]
    exact cSub_eq _ _ (by omega) (by positivity) (by omega)
  unfold withinTap at hout
  have hex : tapExceeded (decode_x p.b1 p.b2) (decode_y s.y_max p.b4 p.b5)
      q0 = true := by
    unfold tapExceeded
    rw [hdx, hdy]
    simp only [decide_eq_true_eq]
    unfold ETP_TAPTOCLICK_DIST
    omega
  simp only [elantech_report_absolute_v3, hf]
  norm_num [hx, hy', hV, hR, hQ, hv, hex]

/-- Processing a 0-finger release frame: exactly one event is
dispatched; it carries the synthesized left (prior single finger) or
right (prior two fingers) button when tap eligibility held and the prior
finger count was 1 or 2, and only the physical buttons otherwise; tap
eligibility is re-armed and all slots reset. -/
theorem report_release (s : DriverState) (p : Packet)
    (hf : fingersOf p = 0) :
    (elantech_report_absolute_v3 s p PACKET_V3_HEAD).2 =
      [⟨0, 0,
        if s.tapToClick ∧ 0 < s.last_fingers ∧ s.last_fingers ≤ 2 then
          (if s.last_fingers = 1 then rawButtons p.b0 ||| 0x1
           else rawButtons p.b0 ||| 0x2)
        else rawButtons p.b0⟩] ∧
    (elantech_report_absolute_v3 s p PACKET_V3_HEAD).1.tapToClick = true ∧
    (elantech_report_absolute_v3 s p PACKET_V3_HEAD).1.validStartPoint =
      List.replicate 5 false ∧
    (elantech_report_absolute_v3 s p PACKET_V3_HEAD).1.tapInRange =
      List.replicate 5 true := by
  refine ⟨?_, ?_, ?_, ?_⟩ <;> simp only [elantech_report_absolute_v3, hf] <;>
    norm_num
  by_cases h : s.tapToClick ∧ 0 < s.last_fingers ∧ s.last_fingers ≤ 2
  · obtain ⟨h1, h2, h3⟩ := h
    have h5 : s.last_fingers = 1 ∨ s.last_fingers = 2 := by omega
    rcases h5 with h5 | h5 <;> simp [h1, h5]
  · simp [h]

/-- Running a sequence of good single-finger samples that all stay
within the tap radius of the latched start point preserves the whole
tap-tracking state: slot 0 stays valid and in range with the same start
point, tap eligibility survives, and the finger count stays 1. -/
theorem run_within (l : List Packet) : ∀ (s : DriverState) (x₀ y₀ : Nat),
    WFg s → s.y_max < 32768 → x₀ < 32768 → y₀ < 32768 →
    s.validStartPoint.getD 0 false = true →
    s.startPoint.getD 0 ⟨0, 0⟩ = ⟨(x₀ : Int), (y₀ : Int)⟩ →
    s.tapInRange.getD 0 true = true →
    s.tapToClick = true →
    s.last_fingers = 1 →
    (∀ p ∈ l, goodSample s.y_max p ∧ withinTap x₀ y₀ s.y_max p) →
    WFg (runSamples s l) ∧ (runSamples s l).y_max = s.y_max ∧
    (runSamples s l).validStartPoint.getD 0 false = true ∧
    (runSamples s l).startPoint.getD 0 ⟨0, 0⟩ = ⟨(x₀ : Int), (y₀ : Int)⟩ ∧
    (runSamples s l).tapInRange.getD 0 true = true ∧
    (runSamples s l).tapToClick = true ∧
    (runSamples s l).last_fingers = 1 := by
  induction l with
  | nil =>
      intro s x₀ y₀ hwf hym hx₀ hy₀ hv hsp htir htap hlf hall
      exact ⟨hwf, rfl, hv, hsp, htir, htap, hlf⟩
  | cons p rest ih =>
      intro s x₀ y₀ hwf hym hx₀ hy₀ hv hsp htir htap hlf hall
      have hg := (hall p (List.mem_cons_self p rest)).1
      have hin := (hall p (List.mem_cons_self p rest)).2
      have hshape := report_step1_shape s p PACKET_V3_HEAD hwf hym hg
      have hwithin := report_step1_within s p PACKET_V3_HEAD x₀ y₀ hwf hym hg
        hx₀ hy₀ hv hsp hin
      have hrun : runSamples s (p :: rest) =
          runSamples (elantech_report_absolute_v3 s p PACKET_V3_HEAD).1 rest :=
        rfl
      rw [hrun]
      have hy' : (elantech_report_absolute_v3 s p PACKET_V3_HEAD).1.y_max =
          s.y_max := hshape.2.1
      have hrest := ih (elantech_report_absolute_v3 s p PACKET_V3_HEAD).1 x₀ y₀
        hshape.1 (by rw [hy']; exact hym) hx₀ hy₀
        hshape.2.2.2.1
        (by rw [hshape.2.2.2.2.1 hv]; exact hsp)
        (by rw [hwithin.1]; exact htir)
        (by rw [hwithin.2, htir, htap]; simp)
        hshape.2.2.1
        (by
          intro q hq
          rw [hy']
          exact hall q (List.mem_cons_of_mem p hq))
      exact ⟨hrest.1, by rw [hrest.2.1, hy'], hrest.2.2.1, hrest.2.2.2.1,
        hrest.2.2.2.2.1, hrest.2.2.2.2.2.1, hrest.2.2.2.2.2.2⟩

/-- Running any sequence of good single-finger samples (within the tap
radius or not) preserves well-formedness, the latched start point, the
finger count, and never resurrects cleared tap eligibility. -/
theorem run_good (l : List Packet) : ∀ (s : DriverState) (x₀ y₀ : Nat),
    WFg s → s.y_max < 32768 →
    s.validStartPoint.getD 0 false = true →
    s.startPoint.getD 0 ⟨0, 0⟩ = ⟨(x₀ : Int), (y₀ : Int)⟩ →
    s.last_fingers = 1 →
    (∀ p ∈ l, goodSample s.y_max p) →
    WFg (runSamples s l) ∧ (runSamples s l).y_max = s.y_max ∧
    (runSamples s l).validStartPoint.getD 0 false = true ∧
    (runSamples s l).startPoint.getD 0 ⟨0, 0⟩ = ⟨(x₀ : Int), (y₀ : Int)⟩ ∧
    (runSamples s l).last_fingers = 1 ∧
    (s.tapToClick = false → (runSamples s l).tapToClick = false) := by
  induction l with
  | nil =>
      intro s x₀ y₀ hwf hym hv hsp hlf hall
      exact ⟨hwf, rfl, hv, hsp, hlf, fun h => h⟩
  | cons p rest ih =>
      intro s x₀ y₀ hwf hym hv hsp hlf hall
      have hg := hall p (List.mem_cons_self p rest)
      have hshape := report_step1_shape s p PACKET_V3_HEAD hwf hym hg
      have hrun : runSamples s (p :: rest) =
          runSamples (elantech_report_absolute_v3 s p PACKET_V3_HEAD).1 rest :=
        rfl
      rw [hrun]
      have hy' : (elantech_report_absolute_v3 s p PACKET_V3_HEAD).1.y_max =
          s.y_max := hshape.2.1
      have hrest := ih (elantech_report_absolute_v3 s p PACKET_V3_HEAD).1 x₀ y₀
        hshape.1 (by rw [hy']; exact hym)
        hshape.2.2.2.1
        (by rw [hshape.2.2.2.2.1 hv]; exact hsp)
        hshape.2.2.1
        (by
          intro q hq
          rw [hy']
          exact hall q (List.mem_cons_of_mem p hq))
      refine ⟨hrest.1, by rw [hrest.2.1, hy'], hrest.2.2.1, hrest.2.2.2.1,
        hrest.2.2.2.2.1, ?_⟩
      intro htap
      exact hrest.2.2.2.2.2 (hshape.2.2.2.2.2 htap)

/-- C2: starting from the state `start()` leaves, for a single-finger
contact (first sample `p₀`, further samples `rest`) followed by a
0-finger release frame `rel`: (a) if every sample stays within 32 units
of the latched start point in both axes, the release event carries a
synthesized left-button bit and tap eligibility is re-armed in the
resulting state (it was consumed for that event only); (b) if some
sample leaves the ±32 radius in X or Y, the release event carries only
the physical buttons; (c) a release while tap eligibility holds after a
two-finger contact synthesizes the right button instead. -/
theorem tap_gesture_spec (ymax : Nat) (p₀ : Packet) (rest : List Packet)
    (rel : Packet) (hym : ymax < 32768) (h₀ : goodSample ymax p₀)
    (hrel : fingersOf rel = 0) :
    ((∀ p ∈ rest, goodSample ymax p ∧
        withinTap (decode_x p₀.b1 p₀.b2) (ymax - decode_y_raw p₀.b4 p₀.b5)
          ymax p) →
      (elantech_report_absolute_v3 (runSamples (startState ymax) (p₀ :: rest))
          rel PACKET_V3_HEAD).2 =
        [⟨0, 0, rawButtons rel.b0 ||| 0x1⟩] ∧
      (elantech_report_absolute_v3 (runSamples (startState ymax) (p₀ :: rest))
          rel PACKET_V3_HEAD).1.tapToClick = true) ∧
    ((∀ p ∈ rest, goodSample ymax p) →
      (∃ p ∈ rest, ¬ withinTap (decode_x p₀.b1 p₀.b2)
          (ymax - decode_y_raw p₀.b4 p₀.b5) ymax p) →
      (elantech_report_absolute_v3 (runSamples (startState ymax) (p₀ :: rest))
          rel PACKET_V3_HEAD).2 = [⟨0, 0, rawButtons rel.b0⟩] ∧
      (elantech_report_absolute_v3 (runSamples (startState ymax) (p₀ :: rest))
          rel PACKET_V3_HEAD).1.tapToClick = true) ∧
    (∀ s : DriverState, s.tapToClick = true → s.last_fingers = 2 →
      (elantech_report_absolute_v3 s rel PACKET_V3_HEAD).2 =
        [⟨0, 0, rawButtons rel.b0 ||| 0x2⟩]) := by
  have hwf₀ : WFg (startState ymax) := by
    constructor <;> simp [startState, WFg]
  have hym₀ : (startState ymax).y_max < 32768 := hym
  have hv₀ : (startState ymax).validStartPoint.getD 0 false = false := by
    simp [startState]
  have hx₀lt : decode_x p₀.b1 p₀.b2 < 32768 := by
    have := decode_x_lt p₀.b1 p₀.b2 h₀.1
    omega
  have hy₀lt : ymax - decode_y_raw p₀.b4 p₀.b5 < 32768 := by omega
  have hshape₀ := report_step1_shape (startState ymax) p₀ PACKET_V3_HEAD hwf₀
    hym₀ h₀
  have hfirst := report_step1_first (startState ymax) p₀ PACKET_V3_HEAD hwf₀
    hym₀ h₀ hv₀
  have hrun0 : runSamples (startState ymax) (p₀ :: rest) =
      runSamples
        (elantech_report_absolute_v3 (startState ymax) p₀ PACKET_V3_HEAD).1
        rest := rfl
  have hy₁ : (elantech_report_absolute_v3 (startState ymax) p₀
      PACKET_V3_HEAD).1.y_max = ymax := hshape₀.2.1
  refine ⟨?_, ?_, ?_⟩
  · -- (a) all samples within the radius
    intro hall
    rw [hrun0]
    have hrest := run_within rest
      (elantech_report_absolute_v3 (startState ymax) p₀ PACKET_V3_HEAD).1
      (decode_x p₀.b1 p₀.b2) (ymax - decode_y_raw p₀.b4 p₀.b5)
      hshape₀.1 (by rw [hy₁]; exact hym) hx₀lt hy₀lt
      hshape₀.2.2.2.1
      (by rw [hfirst.1]; try simp [startState])
      (by rw [hfirst.2.1]; try simp [startState])
      (by rw [hfirst.2.2]; try simp [startState])
      hshape₀.2.2.1
      (by
        intro q hq
        rw [hy₁]
        exact hall q hq)
    have hrel' := report_release
      (runSamples
        (elantech_report_absolute_v3 (startState ymax) p₀ PACKET_V3_HEAD).1
        rest) rel hrel
    rw [hrel'.1]
    refine ⟨?_, hrel'.2.1⟩
    have hlf1 := hrest.2.2.2.2.2.2
    rw [if_pos ⟨hrest.2.2.2.2.2.1, by omega, by omega⟩, if_pos hlf1]
  · -- (b) some sample leaves the radius
    intro hgood hex
    obtain ⟨bad, hmem, hnotin⟩ := hex
    obtain ⟨l₁, l₂, rfl⟩ := List.append_of_mem hmem
    rw [hrun0]
    have hrun1 : runSamples
        (elantech_report_absolute_v3 (startState ymax) p₀ PACKET_V3_HEAD).1
        (l₁ ++ bad :: l₂) =
      runSamples
        (elantech_report_absolute_v3
          (runSamples
            (elantech_report_absolute_v3 (startState ymax) p₀
              PACKET_V3_HEAD).1 l₁)
          bad PACKET_V3_HEAD).1 l₂ := by
      simp [runSamples, List.foldl_append]
    rw [hrun1]
    have h1 := run_good l₁
      (elantech_report_absolute_v3 (startState ymax) p₀ PACKET_V3_HEAD).1
      (decode_x p₀.b1 p₀.b2) (ymax - decode_y_raw p₀.b4 p₀.b5)
      hshape₀.1 (by rw [hy₁]; exact hym)
      hshape₀.2.2.2.1
      (by rw [hfirst.1]; try simp [startState])
      hshape₀.2.2.1
      (by
        intro q hq
        rw [hy₁]
        exact hgood q (List.mem_append_left _ hq))
    have hybad : (runSamples
        (elantech_report_absolute_v3 (startState ymax) p₀ PACKET_V3_HEAD).1
        l₁).y_max = ymax := by rw [h1.2.1, hy₁]
    have hgbad : goodSample (runSamples
        (elantech_report_absolute_v3 (startState ymax) p₀ PACKET_V3_HEAD).1
        l₁).y_max bad := by
      rw [hybad]
      exact hgood bad (List.mem_append_right _ (List.mem_cons_self bad l₂))
    have hexceed := report_step1_exceed
      (runSamples
        (elantech_report_absolute_v3 (startState ymax) p₀ PACKET_V3_HEAD).1
        l₁) bad PACKET_V3_HEAD
      (decode_x p₀.b1 p₀.b2) (ymax - decode_y_raw p₀.b4 p₀.b5)
      h1.1 (by rw [hybad]; exact hym) hgbad hx₀lt hy₀lt
      h1.2.2.1 h1.2.2.2.1
      (by rw [hybad]; exact hnotin)
    have hshapebad := report_step1_shape
      (runSamples
        (elantech_report_absolute_v3 (startState ymax) p₀ PACKET_V3_HEAD).1
        l₁) bad PACKET_V3_HEAD h1.1 (by rw [hybad]; exact hym) hgbad
    have h2 := run_good l₂
      (elantech_report_absolute_v3
        (runSamples
          (elantech_report_absolute_v3 (startState ymax) p₀
            PACKET_V3_HEAD).1 l₁) bad PACKET_V3_HEAD).1
      (decode_x p₀.b1 p₀.b2) (ymax - decode_y_raw p₀.b4 p₀.b5)
      hshapebad.1 (by rw [hshapebad.2.1, hybad]; exact hym)
      hshapebad.2.2.2.1
      (by rw [hshapebad.2.2.2.2.1 h1.2.2.1]; exact h1.2.2.2.1)
      hshapebad.2.2.1
      (by
        intro q hq
        rw [hshapebad.2.1, hybad]
        exact hgood q (List.mem_append_right _ (List.mem_cons_of_mem bad hq)))
    have htapoff := h2.2.2.2.2.2 hexceed
    have hrel' := report_release
      (runSamples
        (elantech_report_absolute_v3
          (runSamples
            (elantech_report_absolute_v3 (startState ymax) p₀
              PACKET_V3_HEAD).1 l₁)
          bad PACKET_V3_HEAD).1 l₂) rel hrel
    rw [hrel'.1]
    refine ⟨?_, hrel'.2.1⟩
    rw [if_neg (by
      rw [htapoff]
      simp)]
  · -- (c) two-finger release synthesizes the right button
    intro s htap hlf2
    have hrel' := report_release s rel hrel
    rw [hrel'.1]
    rw [if_pos ⟨htap, by omega, by omega⟩]
    rw [if_neg (by omega)]


/-- Witness for `tap_gesture_spec`: a single-finger contact at (100, 100)
(on a 500-unit-high pad) released with no further samples synthesizes a
left click. -/
theorem tap_gesture_spec_witness :
    (elantech_report_absolute_v3
        (runSamples (startState 500) [⟨0x44, 0x00, 100, 0x02, 0x01, 0x90⟩])
        ⟨0x00, 0x00, 0x00, 0x00, 0x00, 0x00⟩ PACKET_V3_HEAD).2 =
      [⟨0, 0, rawButtons 0x00 ||| 0x1⟩] :=
  ((tap_gesture_spec 500 ⟨0x44, 0x00, 100, 0x02, 0x01, 0x90⟩ []
      ⟨0x00, 0x00, 0x00, 0x00, 0x00, 0x00⟩ (by decide)
      (by unfold goodSample; decide)
      (by decide)).1
    (fun p hp => absurd hp (List.not_mem_nil p))).1

end Elan
